import Mathlib

/-!
Verification of the browser-automation core of `anyrouter-check-in`
(`src/utils/browser.py`) and its masking collaborator
(`src/utils/masking.py`), via a shallow embedding in Lean.

Cookie jars (`dict[str, str]` in Python) are modelled as association
lists of `String × String`; the domain-keyed WAF cookie cache as an
association list of `String × CookieMap`.  Playwright/httpx calls are
environmental: each strategy is parametrised by an environment record
giving the outcome (`Except String _` — `error` is a raised Python
exception) of every externally visible step, and the strategy body is a
Lean function mirroring the Python control flow, including the
`try/except/finally` structure.
-/

set_option autoImplicit false

namespace AnyRouter

/-- A Python `dict[str, str]` cookie jar, as an assoc list in insertion order. -/
abbrev CookieMap := List (String × String)

/-- Python `name in dict`: the key occurs in the map. -/
def containsKey (m : CookieMap) (k : String) : Bool :=
  m.any (fun kv => kv.fst == k)

/-- Python `all(c in m for c in required)`. -/
def allRequiredPresent (m : CookieMap) (required : List String) : Bool :=
  required.all (fun c => containsKey m c)

/-- `BrowserResult` dataclass from `src/utils/browser.py`. -/
structure BrowserResult where
  success : Bool
  waf_cookies : CookieMap
  api_calls : List String
  error : Option String
deriving DecidableEq, Repr

/-- Python string slice `s[:n]` (by code points). -/
def takeChars (s : String) (n : Nat) : String :=
  String.mk (s.data.take n)

/-- `str(e)[:100]`: the truncation applied to exception messages before they
are placed in a failure `BrowserResult`. -/
def truncateError (s : String) : String :=
  takeChars s 100

/-- Python `repr` of a string (cookie names carry no quotes, so `'x'`). -/
def pyStrRepr (s : String) : String :=
  "'" ++ s ++ "'"

/-- Python `repr` of a list of strings, as interpolated by an f-string. -/
def pyListRepr (l : List String) : String :=
  "[" ++ String.intercalate ", " (l.map pyStrRepr) ++ "]"

/-- Whether the character list `pat` occurs at the start of `s`. -/
def charsStartWith : List Char → List Char → Bool
  | _, [] => true
  | [], _ :: _ => false
  | a :: as, b :: bs => a == b && charsStartWith as bs

/-- Whether the character list `pat` occurs anywhere in `s`. -/
def charsContain : List Char → List Char → Bool
  | [], pat => pat.isEmpty
  | s@(_ :: rest), pat => charsStartWith s pat || charsContain rest pat

/-- Python `pat in s` substring containment. -/
def strContainsSub (s pat : String) : Bool :=
  charsContain s.data pat.data

/-- ASCII lowercasing of one character (the URLs compared by the code are
ASCII, where Python `str.lower` acts exactly like this). -/
def asciiLowerChar (c : Char) : Char :=
  if 65 ≤ c.toNat ∧ c.toNat ≤ 90 then Char.ofNat (c.toNat + 32) else c

/-- Python `s.lower()` on ASCII strings. -/
def pyLower (s : String) : String :=
  String.mk (s.data.map asciiLowerChar)

/-! ### Masking collaborator (`src/utils/masking.py`) -/

/-- `mask_session`: `''` for falsy input, `'***'` for short values, else
first three characters, `...`, last three characters. -/
def mask_session : Option String → String
  | none => ""
  | some s =>
    if s.length = 0 then ""
    else if s.length ≤ 6 then "***"
    else String.mk (s.data.take 3) ++ "..." ++ String.mk (s.data.drop (s.length - 3))

/-- `mask_password`: `'***'` for truthy input, `''` otherwise. -/
def mask_password : Option String → String
  | none => ""
  | some s => if s.length = 0 then "" else "***"

/-- `mask_cookies` on the dict branch: falsy dict gives `{}`, otherwise the
value under the key exactly equal to `'session'` is masked and every other
pair is kept unchanged. -/
def mask_cookies (cookies : CookieMap) : CookieMap :=
  if cookies.isEmpty then []
  else cookies.map (fun kv =>
    if kv.fst == "session" then (kv.fst, mask_session (some kv.snd)) else kv)

/-! ### WAF cookie cache (`_waf_cookie_cache` and `get_cached_waf_cookies`) -/

/-- The domain-keyed process-wide cache `_waf_cookie_cache`. -/
abbrev WafCache := List (String × CookieMap)

/-- Python `_waf_cookie_cache[domain]` lookup (with `domain in` guard). -/
def lookupCache : WafCache → String → Option CookieMap
  | [], _ => none
  | e :: rest, d => if e.fst == d then some e.snd else lookupCache rest d

/-- Python `_waf_cookie_cache[domain] = m`: overwrite in place, or append. -/
def cacheInsert : WafCache → String → CookieMap → WafCache
  | [], d, m => [(d, m)]
  | e :: rest, d, m =>
    if e.fst == d then (d, m) :: rest else e :: cacheInsert rest d m

/-- Outcome of one `get_cached_waf_cookies` call: the returned optional map,
the cache state after the call, and how many browser extractions ran. -/
structure CacheCallResult where
  result : Option CookieMap
  cache : WafCache
  extractions : Nat
deriving DecidableEq, Repr

/-- The populate half of `get_cached_waf_cookies`: run the browser
extraction (here its result `extract` is supplied by the environment), and
store/return it only when it is truthy and contains every required name. -/
def populateCache (cache : WafCache) (extract : CookieMap) (domain : String)
    (required_cookies : List String) : CacheCallResult :=
  if !extract.isEmpty && allRequiredPresent extract required_cookies then
    ⟨some extract, cacheInsert cache domain extract, 1⟩
  else
    ⟨none, cache, 1⟩

/-- `get_cached_waf_cookies`, with the whole body inside `_cache_lock`:
return a cached complete entry, otherwise extract and populate. -/
def get_cached_waf_cookies (cache : WafCache) (extract : CookieMap)
    (domain : String) (required_cookies : List String) : CacheCallResult :=
  match lookupCache cache domain with
  | some cached =>
    if allRequiredPresent cached required_cookies then ⟨some cached, cache, 0⟩
    else populateCache cache extract domain required_cookies
  | none => populateCache cache extract domain required_cookies

/-- `clear_waf_cookie_cache`. -/
def clear_waf_cookie_cache (_cache : WafCache) : WafCache := []

/-- The call will reach the extraction: no complete cached entry exists. -/
def cacheMiss (cache : WafCache) (domain : String) (required : List String) : Bool :=
  match lookupCache cache domain with
  | some cached => !allRequiredPresent cached required
  | none => true

/-- Two calls for the same domain serialized by `_cache_lock` (the lock is
held across the whole check-then-populate body, so concurrent callers
execute it back to back); returns the total number of browser extractions. -/
def twoSerializedCalls (cache : WafCache) (extract1 extract2 : CookieMap)
    (domain : String) (required : List String) : Nat :=
  (get_cached_waf_cookies cache extract1 domain required).extractions +
    (get_cached_waf_cookies
      (get_cached_waf_cookies cache extract1 domain required).cache
      extract2 domain required).extractions

/-! ### Cookie-Replay strategy (`get_waf_cookies_and_trigger_signin`)

The try-block is a straight-line sequence of awaited Playwright calls, each
of which may raise; the environment records each call's outcome.  A raised
exception is an `Except.error` carrying `str(e)`. -/

/-- The externally visible steps of the Cookie-Replay flow, in program
order. -/
inductive Step where
  | acquire | newPage | gotoLogin | pageLoad | harvest
  | clearCookies | cookieWait | setSession | gotoHome | fetch | settleWait
deriving DecidableEq, Repr

/-- Outcome of the in-page `fetch('/api/user/self')` run via
`page.evaluate` inside its own `try/except`: the evaluated object reports
`success: true`, reports failure, or the evaluation itself raises. -/
inductive FetchOutcome where
  | ok
  | notOk
  | thrown (msg : String)
deriving DecidableEq, Repr

/-- Environment for one `get_waf_cookies_and_trigger_signin` invocation. -/
structure ReplayEnv where
  acquire : Except String Unit
  newPage : Except String Unit
  gotoLogin : Except String Unit
  pageLoadWait : Except String Unit
  harvested : Except String CookieMap
  clearCookies : Except String Unit
  cookieWait : Except String Unit
  setSession : Except String Unit
  gotoHome : Except String Unit
  observedApiCalls : List String
  fetchOutcome : FetchOutcome
  settleWait : Except String Unit
  closeContext : Except String Unit
  rmtreeResult : Except String Unit
deriving Repr

/-- Run one unit-valued step: on a raise, abort the body recording the step;
otherwise continue with the trace extended. -/
def stepCheck (res : Except String Unit) (s : Step) (sofar : List Step)
    (k : List Step → Except String BrowserResult × List Step) :
    Except String BrowserResult × List Step :=
  match res with
  | .error e => (.error e, sofar ++ [s])
  | .ok _ => k (sofar ++ [s])

/-- Run one value-returning step, as `stepCheck`. -/
def stepGet (res : Except String CookieMap) (s : Step) (sofar : List Step)
    (k : CookieMap → List Step → Except String BrowserResult × List Step) :
    Except String BrowserResult × List Step :=
  match res with
  | .error e => (.error e, sofar ++ [s])
  | .ok v => k v (sofar ++ [s])

/-- The try-block of `get_waf_cookies_and_trigger_signin`: returns the
body's outcome (a returned `BrowserResult`, or a raised exception) together
with the trace of steps that executed. -/
def cookieReplayBody (env : ReplayEnv) (domain : String)
    (required_cookies : List String) : Except String BrowserResult × List Step :=
  stepCheck env.acquire Step.acquire [] fun t =>
  stepCheck env.newPage Step.newPage t fun t =>
  stepCheck env.gotoLogin Step.gotoLogin t fun t =>
  stepCheck env.pageLoadWait Step.pageLoad t fun t =>
  stepGet env.harvested Step.harvest t fun waf_cookies t =>
  let missing_cookies := required_cookies.filter (fun c => !containsKey waf_cookies c)
  if !missing_cookies.isEmpty then
    (.ok (BrowserResult.mk false [] []
      (some ("缺少 WAF cookies: " ++ pyListRepr missing_cookies))), t)
  else
  stepCheck env.clearCookies Step.clearCookies t fun t =>
  stepCheck env.cookieWait Step.cookieWait t fun t =>
  stepCheck env.setSession Step.setSession t fun t =>
  stepCheck env.gotoHome Step.gotoHome t fun t =>
  let api_calls := env.observedApiCalls ++
    (match env.fetchOutcome with
     | FetchOutcome.ok => ["GET " ++ domain ++ "/api/user/self (browser)"]
     | _ => [])
  stepCheck env.settleWait Step.settleWait (t ++ [Step.fetch]) fun t =>
  (.ok (BrowserResult.mk true waf_cookies api_calls none), t)

/-- The `except Exception` handler shared by the browser strategies: any
exception raised in the body becomes a failure `BrowserResult` with the
truncated message and empty cookie/API fields. -/
def exceptHandler (body : Except String BrowserResult) : Except String BrowserResult :=
  match body with
  | .ok r => .ok r
  | .error e => .ok (BrowserResult.mk false [] [] (some (truncateError e)))

/-- Observable outcome of a full strategy run: the value returned to (or
the exception propagated to) the caller, how many times `context.close` and
`shutil.rmtree` ran, and the trace of body steps. -/
structure RunStats where
  outcome : Except String BrowserResult
  closeCount : Nat
  rmtreeCount : Nat
  steps : List Step
deriving Repr

/-- Python truthiness of the `context` local: the stealth context was
acquired. -/
def exceptOk : Except String Unit → Bool
  | .ok _ => true
  | .error _ => false

/-- The `finally` block: when the context was acquired, `context.close()`
runs (a raise there propagates, skipping the directory removal); then
`shutil.rmtree` runs inside `try/except: pass`, so its outcome is
discarded whichever it is. -/
def runFinally (handled : Except String BrowserResult) (acquired : Bool)
    (closeRes rmtreeRes : Except String Unit) (steps : List Step) : RunStats :=
  if acquired then
    match closeRes with
    | .error e => ⟨.error e, 1, 0, steps⟩
    | .ok _ =>
      match rmtreeRes with
      | .error _ => ⟨handled, 1, 1, steps⟩
      | .ok _ => ⟨handled, 1, 1, steps⟩
  else ⟨handled, 0, 0, steps⟩

/-- One full `get_waf_cookies_and_trigger_signin` invocation:
try-body, `except Exception` handler, `finally` teardown. -/
def runCookieReplay (env : ReplayEnv) (domain : String)
    (required_cookies : List String) : RunStats :=
  runFinally (exceptHandler (cookieReplayBody env domain required_cookies).1)
    (exceptOk env.acquire) env.closeContext env.rmtreeResult
    (cookieReplayBody env domain required_cookies).2

/-! ### Credential-Login strategy (`perform_real_login_signin`) -/

/-- The ordered username-field heuristics, verbatim from the source. -/
def username_selectors : List String :=
  ["input[name=\"username\"]",
   "input[type=\"text\"]:first-of-type",
   "input[placeholder*=\"用户名\"]",
   "input[placeholder*=\"username\"]",
   "input[placeholder*=\"邮箱\"]",
   "input[placeholder*=\"email\"]"]

/-- The ordered password-field heuristics, verbatim from the source. -/
def password_selectors : List String :=
  ["input[name=\"password\"]",
   "input[type=\"password\"]",
   "input[placeholder*=\"密码\"]",
   "input[placeholder*=\"password\"]"]

/-- The ordered submit-control heuristics, verbatim from the source. -/
def submit_selectors : List String :=
  ["button[type=\"submit\"]",
   "button:has-text(\"登录\")",
   "button:has-text(\"登 录\")",
   "button:has-text(\"Login\")",
   "input[type=\"submit\"]",
   ".login-button",
   ".submit-button"]

/-- The `for selector in selectors: try: ... break except: continue` loop.
For a selector, the page reports `none` when `query_selector` finds no
element (or itself raises, which the loop swallows), `some true` when the
element is found and the fill/click succeeds, and `some false` when the
fill/click raises (also swallowed).  Returns the selector that succeeded,
i.e. the first one mapped to `some true`. -/
def fillLoopHit (query : String → Option Bool) : List String → Option String
  | [] => none
  | s :: rest =>
    match query s with
    | some true => some s
    | _ => fillLoopHit query rest

/-- Environment for one `perform_real_login_signin` invocation.  The
`wait_for_selector` probe before the fill loops is wrapped in a
`try/except` that only logs, so it has no observable effect and is not
modelled. -/
structure LoginEnv where
  acquire : Except String Unit
  newPage : Except String Unit
  gotoLogin : Except String Unit
  pageLoadWait : Except String Unit
  harvested : Except String CookieMap
  queryUsername : String → Option Bool
  queryPassword : String → Option Bool
  querySubmit : String → Option Bool
  pressEnter : Except String Unit
  navReachedConsole : Bool
  currentUrl : String
  scrapeError : Except String (Option String)
  observedApiCalls : List String
  settleWait : Except String Unit
  closeContext : Except String Unit
  rmtreeResult : Except String Unit

/-- Tail of the login flow from the settle wait on: the success result
carries whatever cookies were harvested, complete or not. -/
def loginFinish (env : LoginEnv) (waf_cookies : CookieMap) :
    Except String BrowserResult :=
  match env.settleWait with
  | .error e => .error e
  | .ok _ => .ok (BrowserResult.mk true waf_cookies env.observedApiCalls none)

/-- Login flow after the submit click / Enter press: wait for the console
URL; on timeout, if still on a login URL try to scrape a page error message
(that `page.evaluate` may itself raise), failing with the scraped text,
otherwise continue with a warning. -/
def loginAfterSubmit (env : LoginEnv) (waf_cookies : CookieMap) :
    Except String BrowserResult :=
  if env.navReachedConsole then loginFinish env waf_cookies
  else if strContainsSub (pyLower env.currentUrl) "login" then
    match env.scrapeError with
    | .error e => .error e
    | .ok (some error_text) =>
      .ok (BrowserResult.mk false waf_cookies env.observedApiCalls
        (some ("登录失败: " ++ takeChars error_text 50)))
    | .ok none => loginFinish env waf_cookies
  else loginFinish env waf_cookies

/-- The try-block of `perform_real_login_signin`.  The harvested cookies
are not checked against `required_cookies` anywhere in this flow. -/
def loginBody (env : LoginEnv) : Except String BrowserResult :=
  match env.acquire with
  | .error e => .error e
  | .ok _ =>
  match env.newPage with
  | .error e => .error e
  | .ok _ =>
  match env.gotoLogin with
  | .error e => .error e
  | .ok _ =>
  match env.pageLoadWait with
  | .error e => .error e
  | .ok _ =>
  match env.harvested with
  | .error e => .error e
  | .ok waf_cookies =>
  if (fillLoopHit env.queryUsername username_selectors).isNone then
    .ok (BrowserResult.mk false waf_cookies env.observedApiCalls
      (some "无法找到用户名输入框"))
  else if (fillLoopHit env.queryPassword password_selectors).isNone then
    .ok (BrowserResult.mk false waf_cookies env.observedApiCalls
      (some "无法找到密码输入框"))
  else
    match fillLoopHit env.querySubmit submit_selectors with
    | some _ => loginAfterSubmit env waf_cookies
    | none =>
      match env.pressEnter with
      | .error e => .error e
      | .ok _ => loginAfterSubmit env waf_cookies

/-- One full `perform_real_login_signin` invocation: try-body,
`except Exception` handler, `finally` teardown (same shape as the
Cookie-Replay strategy's). -/
def runLogin (env : LoginEnv) : RunStats :=
  runFinally (exceptHandler (loginBody env))
    (exceptOk env.acquire) env.closeContext env.rmtreeResult []

/-! ### HTTP-Only-Replay strategy (`trigger_signin_via_http`) -/

/-- Environment for one `trigger_signin_via_http` invocation: the first GET
to the login URL yields (after redirects) a final URL and status, the
follow-up GET to `/api/user/self` yields a status; either may raise. -/
structure HttpEnv where
  firstGet : Except String (String × Nat)
  secondGet : Except String Nat
deriving Repr

/-- `trigger_signin_via_http`: if the final URL no longer contains
`/login`, issue the follow-up GET and succeed whatever its status;
otherwise fail with the session-expired error.  Raised exceptions reach
the `except Exception` handler, which keeps the accumulated `api_calls`. -/
def trigger_signin_via_http (env : HttpEnv) (domain login_url : String) :
    BrowserResult :=
  match env.firstGet with
  | .error e => BrowserResult.mk false [] [] (some (truncateError e))
  | .ok (final_url, status) =>
    let api1 := ["GET " ++ login_url ++ " -> " ++ toString status]
    if !strContainsSub (pyLower final_url) "/login" then
      match env.secondGet with
      | .error e => BrowserResult.mk false [] api1 (some (truncateError e))
      | .ok status2 =>
        BrowserResult.mk true []
          (api1 ++ ["GET " ++ domain ++ "/api/user/self -> " ++ toString status2])
          none
    else
      BrowserResult.mk false [] api1 (some "session 已过期，需要重新登录")

/-! ### Helper lemmas -/

theorem lookupCache_cacheInsert (cache : WafCache) (d : String) (m : CookieMap) :
    lookupCache (cacheInsert cache d m) d = some m := by
  induction cache with
  | nil => simp [cacheInsert, lookupCache]
  | cons e rest ih =>
    cases he : e.fst == d with
    | true => simp [cacheInsert, he, lookupCache]
    | false => simp [cacheInsert, he, lookupCache, ih]

theorem truncateError_length_le (s : String) : (truncateError s).length ≤ 100 := by
  show (s.data.take 100).length ≤ 100
  rw [List.length_take]
  exact min_le_left _ _

theorem missing_nil_iff_allRequired (m : CookieMap) (required : List String) :
    (required.filter (fun c => !containsKey m c)) = [] ↔
      allRequiredPresent m required = true := by
  unfold allRequiredPresent
  rw [List.filter_eq_nil_iff, List.all_eq_true]
  constructor
  · intro h c hc
    have := h c hc
    simpa using this
  · intro h c hc
    simp [h c hc]

theorem get_cached_eq_populate_of_miss (cache : WafCache) (extract : CookieMap)
    (domain : String) (required : List String)
    (hmiss : cacheMiss cache domain required = true) :
    get_cached_waf_cookies cache extract domain required =
      populateCache cache extract domain required := by
  unfold cacheMiss at hmiss
  unfold get_cached_waf_cookies
  cases hl : lookupCache cache domain with
  | none => simp
  | some cached =>
    rw [hl] at hmiss
    simp at hmiss
    simp [hmiss]

theorem get_cached_of_hit (cache : WafCache) (extract : CookieMap)
    (domain : String) (required : List String)
    (hhit : cacheMiss cache domain required = false) :
    ∃ cached, lookupCache cache domain = some cached ∧
      allRequiredPresent cached required = true ∧
      get_cached_waf_cookies cache extract domain required = ⟨some cached, cache, 0⟩ := by
  unfold cacheMiss at hhit
  cases hl : lookupCache cache domain with
  | none => rw [hl] at hhit; simp at hhit
  | some cached =>
    rw [hl] at hhit
    simp at hhit
    refine ⟨cached, rfl, hhit, ?_⟩
    unfold get_cached_waf_cookies
    simp [hl, hhit]

/-! ### Claim theorems -/

/-- Claim C3 (confirmed): on a cache miss, if the browser extraction yields
an empty map or one missing a required cookie name, `get_cached_waf_cookies`
returns no result and the cache — in particular the entry for the domain —
is exactly what it was before the call. -/
theorem cache_miss_incomplete_extraction_no_write
    (cache : WafCache) (extract : CookieMap) (domain : String) (required : List String)
    (hmiss : cacheMiss cache domain required = true)
    (hbad : extract.isEmpty = true ∨ allRequiredPresent extract required = false) :
    get_cached_waf_cookies cache extract domain required =
      ⟨none, cache, 1⟩ := by
  rw [get_cached_eq_populate_of_miss cache extract domain required hmiss]
  unfold populateCache
  rcases hbad with h | h <;> simp [h]

/-- Claim C3 witness: the spec's literal scenario — required names
`waf_a, waf_b`, extraction yields only `waf_a` — returns no result and
leaves the empty cache absent for the domain. -/
theorem cache_miss_incomplete_extraction_no_write_witness :
    get_cached_waf_cookies [] [("waf_a", "x")] "d" ["waf_a", "waf_b"] =
      ⟨none, [], 1⟩ :=
  cache_miss_incomplete_extraction_no_write [] [("waf_a", "x")] "d"
    ["waf_a", "waf_b"] (by decide) (Or.inr (by decide))

/-- Claim C4 counterexample: when the (serialized) first extraction cannot
produce the required cookie, nothing is cached and the second caller runs a
second browser extraction — refuting "at most one underlying browser
extraction" as stated. -/
theorem serialized_calls_two_extractions_counterexample :
    ¬ twoSerializedCalls [] [] [] "d" ["waf_a"] ≤ 1 := by decide

/-- Claim C4 (corrected): two lock-serialized `get_cached_waf_cookies`
calls for the same domain and required list trigger at most one extraction
provided the first extraction yields a nonempty map containing every
required name; in that case, on a cache miss the second caller returns the
entry stored by the first and performs no extraction of its own. -/
theorem serialized_calls_single_extraction
    (cache : WafCache) (e1 e2 : CookieMap) (domain : String) (required : List String)
    (h1 : e1.isEmpty = false) (h2 : allRequiredPresent e1 required = true) :
    twoSerializedCalls cache e1 e2 domain required ≤ 1 ∧
    (cacheMiss cache domain required = true →
      (get_cached_waf_cookies (get_cached_waf_cookies cache e1 domain required).cache
        e2 domain required).result = some e1 ∧
      (get_cached_waf_cookies (get_cached_waf_cookies cache e1 domain required).cache
        e2 domain required).extractions = 0) := by
  cases hm : cacheMiss cache domain required with
  | true =>
    have hfirst : get_cached_waf_cookies cache e1 domain required =
        ⟨some e1, cacheInsert cache domain e1, 1⟩ := by
      rw [get_cached_eq_populate_of_miss cache e1 domain required hm]
      unfold populateCache
      simp [h1, h2]
    have hsecond : get_cached_waf_cookies (cacheInsert cache domain e1) e2 domain required =
        ⟨some e1, cacheInsert cache domain e1, 0⟩ := by
      unfold get_cached_waf_cookies
      rw [lookupCache_cacheInsert]
      simp [h2]
    constructor
    · unfold twoSerializedCalls
      rw [hfirst]
      simp [hsecond]
    · intro _
      rw [hfirst]
      simp [hsecond]
  | false =>
    obtain ⟨cached, _, _, hcall⟩ := get_cached_of_hit cache e1 domain required hm
    obtain ⟨cached2, _, _, hcall2⟩ := get_cached_of_hit cache e2 domain required hm
    constructor
    · unfold twoSerializedCalls
      rw [hcall]
      simp [hcall2]
    · intro hcontra
      simp at hcontra

/-- Claim C4 witness: with a complete first extraction, the serialized pair
of calls runs exactly one extraction and the second caller is served from
the cache. -/
theorem serialized_calls_single_extraction_witness :
    twoSerializedCalls [] [("waf_a", "x")] [("waf_a", "z")] "d" ["waf_a"] ≤ 1 ∧
    (cacheMiss [] "d" ["waf_a"] = true →
      (get_cached_waf_cookies (get_cached_waf_cookies [] [("waf_a", "x")] "d" ["waf_a"]).cache
        [("waf_a", "z")] "d" ["waf_a"]).result = some [("waf_a", "x")] ∧
      (get_cached_waf_cookies (get_cached_waf_cookies [] [("waf_a", "x")] "d" ["waf_a"]).cache
        [("waf_a", "z")] "d" ["waf_a"]).extractions = 0) :=
  serialized_calls_single_extraction [] [("waf_a", "x")] [("waf_a", "z")] "d" ["waf_a"]
    (by decide) (by decide)

/-- Claim C10 (confirmed): `mask_cookies` redacts only the key exactly equal
to `session`, keeping every other pair unchanged; `mask_session` reveals the
first three and last three characters of values longer than six characters,
returns `***` for non-empty values of length at most six, and the empty
string for empty or absent input. -/
theorem masking_redacts_only_session (cookies : CookieMap) (k v s : String)
    (hk : (k, v) ∈ cookies) (hne : k ≠ "session") :
    ((k, v) ∈ mask_cookies cookies) ∧
    (6 < s.length →
      mask_session (some s) =
        String.mk (s.data.take 3) ++ "..." ++ String.mk (s.data.drop (s.length - 3))) ∧
    (s ≠ "" → s.length ≤ 6 → mask_session (some s) = "***") ∧
    mask_session none = "" ∧ mask_session (some "") = "" := by
  refine ⟨?_, ?_, ?_, rfl, rfl⟩
  · have hemp : cookies.isEmpty = false := by
      cases cookies with
      | nil => cases hk
      | cons e rest => rfl
    have hbeq : (k == "session") = false := by simp [hne]
    unfold mask_cookies
    rw [hemp]
    simp only [Bool.false_eq_true, if_false]
    have := List.mem_map_of_mem
      (fun kv : String × String =>
        if kv.fst == "session" then (kv.fst, mask_session (some kv.snd)) else kv) hk
    simpa [hbeq] using this
  · intro h6
    have h0 : ¬ s.length = 0 := by omega
    have hle : ¬ s.length ≤ 6 := by omega
    simp [mask_session, h0, hle]
  · intro hne0 hle
    have h0 : ¬ s.length = 0 := by
      intro h
      apply hne0
      cases s with
      | mk data =>
        have hd : data = [] := List.length_eq_zero.mp h
        rw [hd]
    simp [mask_session, h0, hle]

/-- Claim C10 witness: a non-session key passes through unchanged and a
seven-character session value is displayed with six of its characters. -/
theorem masking_redacts_only_session_witness :
    (("api_user", "42") ∈
      mask_cookies [("api_user", "42"), ("session", "abcdefg")]) ∧
    (6 < ("abcdefg" : String).length →
      mask_session (some "abcdefg") =
        String.mk (("abcdefg" : String).data.take 3) ++ "..." ++
          String.mk (("abcdefg" : String).data.drop (("abcdefg" : String).length - 3))) ∧
    (("abcdefg" : String) ≠ "" → ("abcdefg" : String).length ≤ 6 →
      mask_session (some "abcdefg") = "***") ∧
    mask_session none = "" ∧ mask_session (some "") = "" :=
  masking_redacts_only_session [("api_user", "42"), ("session", "abcdefg")]
    "api_user" "42" "abcdefg" (by simp) (by decide)

/-- Claim C5 (confirmed): in the HTTP-Only-Replay strategy, when both GETs
complete, the result is decided solely by whether the final URL after
redirects still contains the login marker `/login`: if it does not, the
result is successful whatever the status of the follow-up GET to
`/api/user/self`; if it does, the result is a failure whose error reports
session expiration. -/
theorem http_replay_final_url_decides_success (env : HttpEnv)
    (domain login_url final_url : String) (st1 st2 : Nat)
    (h1 : env.firstGet = Except.ok (final_url, st1))
    (h2 : env.secondGet = Except.ok st2) :
    (strContainsSub (pyLower final_url) "/login" = false →
      (trigger_signin_via_http env domain login_url).success = true ∧
      (trigger_signin_via_http env domain login_url).error = none) ∧
    (strContainsSub (pyLower final_url) "/login" = true →
      (trigger_signin_via_http env domain login_url).success = false ∧
      (trigger_signin_via_http env domain login_url).error =
        some "session 已过期，需要重新登录") := by
  constructor
  · intro hurl
    unfold trigger_signin_via_http
    rw [h1]
    simp [hurl, h2]
  · intro hurl
    unfold trigger_signin_via_http
    rw [h1]
    simp [hurl]

/-- Claim C5 witness: a redirect to the site root succeeds even when the
follow-up GET returns 404; a final URL still on `/login` fails with the
session-expired error. -/
theorem http_replay_final_url_decides_success_witness :
    ((trigger_signin_via_http ⟨Except.ok ("https://agentrouter.org/", 200), Except.ok 404⟩
        "https://agentrouter.org" "https://agentrouter.org/login").success = true ∧
      (trigger_signin_via_http ⟨Except.ok ("https://agentrouter.org/", 200), Except.ok 404⟩
        "https://agentrouter.org" "https://agentrouter.org/login").error = none) ∧
    ((trigger_signin_via_http ⟨Except.ok ("https://agentrouter.org/login", 200), Except.ok 200⟩
        "https://agentrouter.org" "https://agentrouter.org/login").success = false ∧
      (trigger_signin_via_http ⟨Except.ok ("https://agentrouter.org/login", 200), Except.ok 200⟩
        "https://agentrouter.org" "https://agentrouter.org/login").error =
          some "session 已过期，需要重新登录") :=
  ⟨(http_replay_final_url_decides_success
      ⟨Except.ok ("https://agentrouter.org/", 200), Except.ok 404⟩
      "https://agentrouter.org" "https://agentrouter.org/login"
      "https://agentrouter.org/" 200 404 rfl rfl).1 (by decide),
   (http_replay_final_url_decides_success
      ⟨Except.ok ("https://agentrouter.org/login", 200), Except.ok 200⟩
      "https://agentrouter.org" "https://agentrouter.org/login"
      "https://agentrouter.org/login" 200 200 rfl rfl).2 (by decide)⟩

/-! ### Concrete environments used in witnesses and counterexamples -/

/-- A fault-free Cookie-Replay environment: every Playwright step succeeds,
the login page sets the one WAF cookie `acw_tc`, and the in-page fetch
succeeds. -/
def envReplayAllOk : ReplayEnv where
  acquire := Except.ok ()
  newPage := Except.ok ()
  gotoLogin := Except.ok ()
  pageLoadWait := Except.ok ()
  harvested := Except.ok [("acw_tc", "v")]
  clearCookies := Except.ok ()
  cookieWait := Except.ok ()
  setSession := Except.ok ()
  gotoHome := Except.ok ()
  observedApiCalls := []
  fetchOutcome := FetchOutcome.ok
  settleWait := Except.ok ()
  closeContext := Except.ok ()
  rmtreeResult := Except.ok ()

/-- A fault-free Credential-Login environment whose login page sets no
cookies at all: every step succeeds, the first username/password/submit
heuristic matches, and navigation reaches the console. -/
def envLoginAllOk : LoginEnv where
  acquire := Except.ok ()
  newPage := Except.ok ()
  gotoLogin := Except.ok ()
  pageLoadWait := Except.ok ()
  harvested := Except.ok []
  queryUsername := fun s => if s == "input[name=\"username\"]" then some true else none
  queryPassword := fun s => if s == "input[name=\"password\"]" then some true else none
  querySubmit := fun s => if s == "button[type=\"submit\"]" then some true else none
  pressEnter := Except.ok ()
  navReachedConsole := true
  currentUrl := "https://agentrouter.org/console"
  scrapeError := Except.ok none
  observedApiCalls := []
  settleWait := Except.ok ()
  closeContext := Except.ok ()
  rmtreeResult := Except.ok ()

/-- A 150-character exception message, longer than the truncation bound. -/
def longMsg : String :=
  String.mk (List.replicate 150 'x')

/-- Claim C6 (confirmed): the username/password heuristics are tried in
their listed order with first-match-wins short-circuiting; when no username
heuristic matches, the flow fails with the username-field error (never the
password one), and when a username heuristic matches but no password
heuristic does, it fails with the password-field error. -/
theorem credential_login_heuristic_order_and_errors (env : LoginEnv) (m : CookieMap)
    (h1 : env.acquire = Except.ok ()) (h2 : env.newPage = Except.ok ())
    (h3 : env.gotoLogin = Except.ok ()) (h4 : env.pageLoadWait = Except.ok ())
    (h5 : env.harvested = Except.ok m) :
    (∀ (query : String → Option Bool) (skipped : List String) (s : String)
        (rest : List String),
      (∀ t ∈ skipped, query t ≠ some true) → query s = some true →
      fillLoopHit query (skipped ++ s :: rest) = some s) ∧
    (fillLoopHit env.queryUsername username_selectors = none →
      loginBody env = Except.ok (BrowserResult.mk false m env.observedApiCalls
        (some "无法找到用户名输入框"))) ∧
    (∀ s, fillLoopHit env.queryUsername username_selectors = some s →
      fillLoopHit env.queryPassword password_selectors = none →
      loginBody env = Except.ok (BrowserResult.mk false m env.observedApiCalls
        (some "无法找到密码输入框"))) := by
  refine ⟨?_, ?_, ?_⟩
  · intro query skipped s rest hsk hqs
    induction skipped with
    | nil => simp [fillLoopHit, hqs]
    | cons t ts ih =>
      have ht : query t ≠ some true := hsk t (by simp)
      have hrec := ih (fun x hx => hsk x (by simp [hx]))
      cases hqt : query t with
      | none => simpa [fillLoopHit, hqt] using hrec
      | some b =>
        cases b with
        | false => simpa [fillLoopHit, hqt] using hrec
        | true => exact absurd hqt ht
  · intro hu
    simp [loginBody, h1, h2, h3, h4, h5, hu]
  · intro s hu hp
    simp [loginBody, h1, h2, h3, h4, h5, hu, hp]

/-- Claim C6 witness: with a page matching no username heuristic the flow
reports the username-field error; with a page matching the first username
heuristic but no password heuristic it reports the password-field error. -/
theorem credential_login_heuristic_order_and_errors_witness :
    loginBody { envLoginAllOk with queryUsername := fun _ => none } =
      Except.ok (BrowserResult.mk false [] [] (some "无法找到用户名输入框")) ∧
    loginBody { envLoginAllOk with queryPassword := fun _ => none } =
      Except.ok (BrowserResult.mk false [] [] (some "无法找到密码输入框")) :=
  ⟨(credential_login_heuristic_order_and_errors
      { envLoginAllOk with queryUsername := fun _ => none } []
      rfl rfl rfl rfl rfl).2.1 rfl,
   (credential_login_heuristic_order_and_errors
      { envLoginAllOk with queryPassword := fun _ => none } []
      rfl rfl rfl rfl rfl).2.2 "input[name=\"username\"]" rfl rfl⟩

/-- Claim C7 (confirmed): in the Cookie-Replay strategy, when navigation and
harvesting complete but some required cookie name is absent, the body
returns a failure naming the missing WAF cookies, and no later step
(cookie clearing, session injection, home navigation, proactive fetch,
settle wait) executes: the trace stops at the harvest. -/
theorem cookie_replay_missing_cookies_fail_fast (env : ReplayEnv)
    (domain : String) (required : List String) (m : CookieMap) (c : String)
    (h1 : env.acquire = Except.ok ()) (h2 : env.newPage = Except.ok ())
    (h3 : env.gotoLogin = Except.ok ()) (h4 : env.pageLoadWait = Except.ok ())
    (h5 : env.harvested = Except.ok m)
    (hc : c ∈ required) (hmc : containsKey m c = false) :
    cookieReplayBody env domain required =
      (Except.ok (BrowserResult.mk false [] []
        (some ("缺少 WAF cookies: " ++
          pyListRepr (required.filter (fun c2 => !containsKey m c2))))),
       [Step.acquire, Step.newPage, Step.gotoLogin, Step.pageLoad, Step.harvest]) := by
  have hmem : c ∈ required.filter (fun c2 => !containsKey m c2) :=
    List.mem_filter.mpr ⟨hc, by simp [hmc]⟩
  have hne : (required.filter (fun c2 => !containsKey m c2)).isEmpty = false := by
    cases hfe : required.filter (fun c2 => !containsKey m c2) with
    | nil => rw [hfe] at hmem; cases hmem
    | cons x xs => rfl
  simp [cookieReplayBody, stepCheck, stepGet, h1, h2, h3, h4, h5, hne]

/-- Claim C7 witness: a login page that sets no cookies while `acw_tc` is
required makes the flow stop right after the harvest with the
missing-cookies error. -/
theorem cookie_replay_missing_cookies_fail_fast_witness :
    cookieReplayBody { envReplayAllOk with harvested := Except.ok [] }
      "https://agentrouter.org" ["acw_tc"] =
      (Except.ok (BrowserResult.mk false [] []
        (some "缺少 WAF cookies: ['acw_tc']")),
       [Step.acquire, Step.newPage, Step.gotoLogin, Step.pageLoad, Step.harvest]) := by
  rw [cookie_replay_missing_cookies_fail_fast
    { envReplayAllOk with harvested := Except.ok [] }
    "https://agentrouter.org" ["acw_tc"] [] "acw_tc"
    rfl rfl rfl rfl rfl (by decide) (by decide)]
  rfl

/-- Claim C8 (confirmed): in the Cookie-Replay strategy, when every
surrounding step completes without fault, the invocation succeeds whatever
the outcome of the in-page proactive fetch to `/api/user/self` — it may
report success, report failure, or raise — so that fetch never affects the
reported result. -/
theorem proactive_fetch_never_affects_success (env : ReplayEnv)
    (domain : String) (required : List String) (m : CookieMap)
    (h1 : env.acquire = Except.ok ()) (h2 : env.newPage = Except.ok ())
    (h3 : env.gotoLogin = Except.ok ()) (h4 : env.pageLoadWait = Except.ok ())
    (h5 : env.harvested = Except.ok m)
    (h6 : allRequiredPresent m required = true)
    (h7 : env.clearCookies = Except.ok ()) (h8 : env.cookieWait = Except.ok ())
    (h9 : env.setSession = Except.ok ()) (h10 : env.gotoHome = Except.ok ())
    (h11 : env.settleWait = Except.ok ()) (h12 : env.closeContext = Except.ok ()) :
    ∀ f : FetchOutcome, ∃ r : BrowserResult,
      (runCookieReplay { env with fetchOutcome := f } domain required).outcome =
        Except.ok r ∧ r.success = true := by
  intro f
  have hm : (required.filter (fun c => !containsKey m c)).isEmpty = true := by
    rw [(missing_nil_iff_allRequired m required).mpr h6]
    rfl
  refine ⟨BrowserResult.mk true m (env.observedApiCalls ++
    (match f with
     | FetchOutcome.ok => ["GET " ++ domain ++ "/api/user/self (browser)"]
     | _ => [])) none, ?_, rfl⟩
  cases hrm : env.rmtreeResult with
  | error e =>
    simp [runCookieReplay, runFinally, exceptHandler, exceptOk, cookieReplayBody,
      stepCheck, stepGet, h1, h2, h3, h4, h5, h7, h8, h9, h10, h11, h12, hm, hrm]
  | ok u =>
    simp [runCookieReplay, runFinally, exceptHandler, exceptOk, cookieReplayBody,
      stepCheck, stepGet, h1, h2, h3, h4, h5, h7, h8, h9, h10, h11, h12, hm, hrm]

/-- Claim C8 witness: with every surrounding step succeeding, a raising
in-page fetch still yields a successful result. -/
theorem proactive_fetch_never_affects_success_witness :
    ∃ r : BrowserResult,
      (runCookieReplay { envReplayAllOk with fetchOutcome := FetchOutcome.thrown "boom" }
        "https://agentrouter.org" ["acw_tc"]).outcome = Except.ok r ∧
      r.success = true :=
  proactive_fetch_never_affects_success envReplayAllOk "https://agentrouter.org"
    ["acw_tc"] [("acw_tc", "v")] rfl rfl rfl rfl rfl (by decide)
    rfl rfl rfl rfl rfl rfl (FetchOutcome.thrown "boom")

/-- Claim C9 (confirmed): whenever a strategy fails because a step raised an
unexpected exception, the error placed in the `BrowserResult` is the
exception message truncated to at most 100 characters, whatever the
underlying message — in the Cookie-Replay and Credential-Login handlers and
in both raising positions of the HTTP-Only-Replay strategy. -/
theorem transport_fault_error_truncated :
    (∀ (env : ReplayEnv) (domain : String) (required : List String) (e : String),
      (cookieReplayBody env domain required).1 = Except.error e →
      exceptHandler (cookieReplayBody env domain required).1 =
        Except.ok (BrowserResult.mk false [] [] (some (truncateError e))) ∧
      (truncateError e).length ≤ 100) ∧
    (∀ (env : LoginEnv) (e : String),
      loginBody env = Except.error e →
      exceptHandler (loginBody env) =
        Except.ok (BrowserResult.mk false [] [] (some (truncateError e))) ∧
      (truncateError e).length ≤ 100) ∧
    (∀ (env : HttpEnv) (domain login_url e : String),
      env.firstGet = Except.error e →
      (trigger_signin_via_http env domain login_url).error =
        some (truncateError e) ∧
      (truncateError e).length ≤ 100) ∧
    (∀ (env : HttpEnv) (domain login_url final_url e : String) (st : Nat),
      env.firstGet = Except.ok (final_url, st) →
      strContainsSub (pyLower final_url) "/login" = false →
      env.secondGet = Except.error e →
      (trigger_signin_via_http env domain login_url).error =
        some (truncateError e) ∧
      (truncateError e).length ≤ 100) := by
  refine ⟨?_, ?_, ?_, ?_⟩
  · intro env domain required e h
    rw [h]
    exact ⟨rfl, truncateError_length_le e⟩
  · intro env e h
    rw [h]
    exact ⟨rfl, truncateError_length_le e⟩
  · intro env domain login_url e h
    unfold trigger_signin_via_http
    rw [h]
    exact ⟨rfl, truncateError_length_le e⟩
  · intro env domain login_url final_url e st h1 hurl h2
    unfold trigger_signin_via_http
    rw [h1]
    simp [hurl, h2]
    exact truncateError_length_le e

/-- Claim C9 witness: a 150-character exception message raised during the
login-page navigation (Cookie-Replay), form page load (Credential-Login),
first GET, and follow-up GET (HTTP-Only-Replay) always ends up truncated to
at most 100 characters. -/
theorem transport_fault_error_truncated_witness :
    (exceptHandler (cookieReplayBody { envReplayAllOk with gotoLogin := Except.error longMsg }
        "https://agentrouter.org" ["acw_tc"]).1 =
      Except.ok (BrowserResult.mk false [] [] (some (truncateError longMsg))) ∧
      (truncateError longMsg).length ≤ 100) ∧
    (exceptHandler (loginBody { envLoginAllOk with gotoLogin := Except.error longMsg }) =
      Except.ok (BrowserResult.mk false [] [] (some (truncateError longMsg))) ∧
      (truncateError longMsg).length ≤ 100) ∧
    ((trigger_signin_via_http ⟨Except.error longMsg, Except.ok 200⟩
        "https://agentrouter.org" "https://agentrouter.org/login").error =
      some (truncateError longMsg) ∧
      (truncateError longMsg).length ≤ 100) ∧
    ((trigger_signin_via_http ⟨Except.ok ("https://agentrouter.org/", 200), Except.error longMsg⟩
        "https://agentrouter.org" "https://agentrouter.org/login").error =
      some (truncateError longMsg) ∧
      (truncateError longMsg).length ≤ 100) :=
  ⟨transport_fault_error_truncated.1 { envReplayAllOk with gotoLogin := Except.error longMsg }
      "https://agentrouter.org" ["acw_tc"] longMsg rfl,
   transport_fault_error_truncated.2.1 { envLoginAllOk with gotoLogin := Except.error longMsg }
      longMsg rfl,
   transport_fault_error_truncated.2.2.1 ⟨Except.error longMsg, Except.ok 200⟩
      "https://agentrouter.org" "https://agentrouter.org/login" longMsg rfl,
   transport_fault_error_truncated.2.2.2 ⟨Except.ok ("https://agentrouter.org/", 200), Except.error longMsg⟩
      "https://agentrouter.org" "https://agentrouter.org/login"
      "https://agentrouter.org/" longMsg 200 rfl (by decide) rfl⟩

theorem runFinally_rmtree_irrelevant (handled : Except String BrowserResult)
    (acquired : Bool) (closeRes rm1 rm2 : Except String Unit) (steps : List Step) :
    runFinally handled acquired closeRes rm1 steps =
      runFinally handled acquired closeRes rm2 steps := by
  cases acquired <;> cases closeRes <;> cases rm1 <;> cases rm2 <;> rfl

/-- Claim C2 counterexample: with every step of a Cookie-Replay run
succeeding, a raise from `context.close()` in the `finally` block is not
swallowed — the invocation propagates the exception instead of returning
the success `BrowserResult` the body produced (and the temp-profile removal
is skipped). -/
theorem cleanup_failure_not_swallowed_counterexample :
    (runCookieReplay envReplayAllOk "https://agentrouter.org" ["acw_tc"]).outcome =
      Except.ok (BrowserResult.mk true [("acw_tc", "v")]
        ["GET https://agentrouter.org/api/user/self (browser)"] none) ∧
    (runCookieReplay { envReplayAllOk with closeContext := Except.error "close failed" }
      "https://agentrouter.org" ["acw_tc"]).outcome = Except.error "close failed" ∧
    (runCookieReplay { envReplayAllOk with closeContext := Except.error "close failed" }
      "https://agentrouter.org" ["acw_tc"]).rmtreeCount = 0 :=
  ⟨rfl, rfl, rfl⟩

/-- Claim C2 (corrected): once the stealth session is acquired, the context
close runs exactly once on every exit path of the Cookie-Replay strategy —
normal return, handled failure return, or a raise at any intermediate step —
and a failure of the temp-profile removal is swallowed, changing nothing
observable; but a failure of the context close itself propagates as an
exception in place of the strategy's `BrowserResult`. -/
theorem teardown_runs_once_and_rmtree_swallowed (env : ReplayEnv)
    (domain : String) (required : List String)
    (h : env.acquire = Except.ok ()) :
    (runCookieReplay env domain required).closeCount = 1 ∧
    (∀ rm1 rm2 : Except String Unit,
      runCookieReplay { env with rmtreeResult := rm1 } domain required =
        runCookieReplay { env with rmtreeResult := rm2 } domain required) := by
  constructor
  · unfold runCookieReplay runFinally
    rw [h]
    cases env.closeContext with
    | error e => simp [exceptOk]
    | ok u => cases env.rmtreeResult <;> simp [exceptOk]
  · intro rm1 rm2
    obtain ⟨a, np, gl, pl, hv, cc, cw, ss, gh, oa, fo, sw, cl, rm⟩ := env
    simp only [runCookieReplay]
    exact runFinally_rmtree_irrelevant _ _ _ rm1 rm2 _

/-- Claim C2 witness: in a fault-free run the close executes exactly once,
and replacing the temp-profile-removal outcome by a raise changes nothing. -/
theorem teardown_runs_once_and_rmtree_swallowed_witness :
    (runCookieReplay envReplayAllOk "https://agentrouter.org" ["acw_tc"]).closeCount = 1 ∧
    (∀ rm1 rm2 : Except String Unit,
      runCookieReplay { envReplayAllOk with rmtreeResult := rm1 }
        "https://agentrouter.org" ["acw_tc"] =
      runCookieReplay { envReplayAllOk with rmtreeResult := rm2 }
        "https://agentrouter.org" ["acw_tc"]) :=
  teardown_runs_once_and_rmtree_swallowed envReplayAllOk
    "https://agentrouter.org" ["acw_tc"] rfl

theorem populateCache_result_complete (cache : WafCache) (extract : CookieMap)
    (domain : String) (required : List String) (m : CookieMap)
    (h : (populateCache cache extract domain required).result = some m) :
    allRequiredPresent m required = true := by
  unfold populateCache at h
  cases hc : (!extract.isEmpty && allRequiredPresent extract required) with
  | true =>
    rw [hc] at h
    simp at h
    rw [← h]
    simp only [Bool.and_eq_true] at hc
    exact hc.2
  | false =>
    rw [hc] at h
    simp at h

theorem populateCache_entry_complete (cache : WafCache) (extract : CookieMap)
    (domain : String) (required : List String) (m : CookieMap)
    (h : lookupCache (populateCache cache extract domain required).cache domain = some m) :
    lookupCache cache domain = some m ∨ allRequiredPresent m required = true := by
  unfold populateCache at h
  cases hc : (!extract.isEmpty && allRequiredPresent extract required) with
  | true =>
    rw [hc] at h
    simp [lookupCache_cacheInsert] at h
    right
    rw [← h]
    simp only [Bool.and_eq_true] at hc
    exact hc.2
  | false =>
    rw [hc] at h
    simp at h
    left
    exact h

theorem cookieReplayBody_ok_success (env : ReplayEnv) (domain : String)
    (required : List String) (r : BrowserResult)
    (h : (cookieReplayBody env domain required).1 = Except.ok r)
    (hs : r.success = true) :
    allRequiredPresent r.waf_cookies required = true := by
  obtain ⟨a, np, gl, pl, hv, cc, cw, ss, gh, oa, fo, sw, cl, rm⟩ := env
  cases a with
  | error e => simp [cookieReplayBody, stepCheck, stepGet] at h
  | ok u1 =>
  cases np with
  | error e => simp [cookieReplayBody, stepCheck, stepGet] at h
  | ok u2 =>
  cases gl with
  | error e => simp [cookieReplayBody, stepCheck, stepGet] at h
  | ok u3 =>
  cases pl with
  | error e => simp [cookieReplayBody, stepCheck, stepGet] at h
  | ok u4 =>
  cases hv with
  | error e => simp [cookieReplayBody, stepCheck, stepGet] at h
  | ok m =>
  cases hm : (required.filter (fun c => !containsKey m c)).isEmpty with
  | false =>
    simp [cookieReplayBody, stepCheck, stepGet, hm] at h
    rw [← h] at hs
    simp at hs
  | true =>
    cases cc with
    | error e => simp [cookieReplayBody, stepCheck, stepGet, hm] at h
    | ok u5 =>
    cases cw with
    | error e => simp [cookieReplayBody, stepCheck, stepGet, hm] at h
    | ok u6 =>
    cases ss with
    | error e => simp [cookieReplayBody, stepCheck, stepGet, hm] at h
    | ok u7 =>
    cases gh with
    | error e => simp [cookieReplayBody, stepCheck, stepGet, hm] at h
    | ok u8 =>
    cases sw with
    | error e => simp [cookieReplayBody, stepCheck, stepGet, hm] at h
    | ok u9 =>
      simp [cookieReplayBody, stepCheck, stepGet, hm] at h
      rw [← h]
      exact (missing_nil_iff_allRequired m required).mp (List.isEmpty_iff.mp hm)

theorem runFinally_outcome_ok (handled : Except String BrowserResult) (acquired : Bool)
    (closeRes rmRes : Except String Unit) (steps : List Step) (r : BrowserResult)
    (h : (runFinally handled acquired closeRes rmRes steps).outcome = Except.ok r) :
    handled = Except.ok r := by
  cases acquired with
  | false => simpa [runFinally] using h
  | true =>
    cases closeRes with
    | error e => simp [runFinally] at h
    | ok u => cases rmRes <;> simpa [runFinally] using h

theorem runCookieReplay_success_complete (env : ReplayEnv) (domain : String)
    (required : List String) (r : BrowserResult)
    (h : (runCookieReplay env domain required).outcome = Except.ok r)
    (hs : r.success = true) :
    allRequiredPresent r.waf_cookies required = true := by
  unfold runCookieReplay at h
  have hh := runFinally_outcome_ok _ _ _ _ _ _ h
  cases hb : (cookieReplayBody env domain required).1 with
  | ok r0 =>
    rw [hb] at hh
    simp [exceptHandler] at hh
    subst hh
    exact cookieReplayBody_ok_success env domain required r0 hb hs
  | error e =>
    rw [hb] at hh
    simp [exceptHandler] at hh
    rw [← hh] at hs
    simp at hs

/-- Claim C1 counterexample: a Credential-Login invocation with required
cookie name `acw_tc` whose login page sets no cookies at all still returns
`success = true` with an empty `waf_cookies` map — `perform_real_login_signin`
never checks the harvested cookies against the required list. -/
theorem login_success_without_required_cookies_counterexample :
    (runLogin envLoginAllOk).outcome = Except.ok (BrowserResult.mk true [] [] none) ∧
    allRequiredPresent [] ["acw_tc"] = false :=
  ⟨rfl, rfl⟩

/-- Claim C1 (corrected): the completeness invariant holds for the cache and
for the Cookie-Replay strategy — `get_cached_waf_cookies` returns and stores
only maps containing every required name, and a successful Cookie-Replay
`BrowserResult` carries every required name — but not for the
Credential-Login strategy, which can succeed with an incomplete map. -/
theorem cache_and_cookie_replay_success_complete
    (cache : WafCache) (extract : CookieMap) (domain : String) (required : List String)
    (env : ReplayEnv) (domainR : String) (requiredR : List String) :
    (∀ m, (get_cached_waf_cookies cache extract domain required).result = some m →
      allRequiredPresent m required = true) ∧
    (∀ m, lookupCache (get_cached_waf_cookies cache extract domain required).cache
        domain = some m →
      lookupCache cache domain = some m ∨ allRequiredPresent m required = true) ∧
    (∀ r, (runCookieReplay env domainR requiredR).outcome = Except.ok r →
      r.success = true → allRequiredPresent r.waf_cookies requiredR = true) := by
  refine ⟨?_, ?_, ?_⟩
  · intro m hm
    unfold get_cached_waf_cookies at hm
    cases hl : lookupCache cache domain with
    | some cached =>
      rw [hl] at hm
      cases hcc : allRequiredPresent cached required with
      | true =>
        simp [hcc] at hm
        rw [← hm]
        exact hcc
      | false =>
        simp [hcc] at hm
        exact populateCache_result_complete cache extract domain required m hm
    | none =>
      rw [hl] at hm
      exact populateCache_result_complete cache extract domain required m hm
  · intro m hm
    unfold get_cached_waf_cookies at hm
    cases hl : lookupCache cache domain with
    | some cached =>
      rw [hl] at hm
      cases hcc : allRequiredPresent cached required with
      | true =>
        simp [hcc] at hm
        rw [hl] at hm
        left
        exact hm
      | false =>
        simp [hcc] at hm
        rcases populateCache_entry_complete cache extract domain required m hm with h | h
        · rw [hl] at h
          left
          exact h
        · right
          exact h
    | none =>
      rw [hl] at hm
      rcases populateCache_entry_complete cache extract domain required m hm with h | h
      · rw [hl] at h
        simp at h
      · right
        exact h
  · intro r hr hs
    exact runCookieReplay_success_complete env domainR requiredR r hr hs

/-- Claim C1 witness: a complete extraction is returned by the cache and a
fault-free Cookie-Replay run's successful result both satisfy the
completeness invariant at concrete inputs. -/
theorem cache_and_cookie_replay_success_complete_witness :
    allRequiredPresent [("waf_a", "x")] ["waf_a"] = true ∧
    allRequiredPresent [("acw_tc", "v")] ["acw_tc"] = true :=
  ⟨(cache_and_cookie_replay_success_complete [] [("waf_a", "x")] "d" ["waf_a"]
      envReplayAllOk "https://agentrouter.org" ["acw_tc"]).1 [("waf_a", "x")] rfl,
   (cache_and_cookie_replay_success_complete [] [("waf_a", "x")] "d" ["waf_a"]
      envReplayAllOk "https://agentrouter.org" ["acw_tc"]).2.2
      (BrowserResult.mk true [("acw_tc", "v")]
        ["GET https://agentrouter.org/api/user/self (browser)"] none) rfl rfl⟩

end AnyRouter
